import Mathlib

set_option autoImplicit false

/-!
Shallow embedding of the FaultyAPI fetch pipeline clients
(`src/orders_server/client_async.py` and `src/orders_server/client_threads.py`).

Both clients share the identical per-item retry loop (`fetch_item`): issue a
GET, then branch on `status_code == 429` / `500 <= s < 600` / `400 <= s < 500`
/ otherwise `return resp.json()`, with `retries += 1` and a sleep on every
retryable branch, under `while retries < max_retries`.

Modelling choices:
- The HTTP client plus the bound URL for one item is a function
  `Nat → TransportResult` from the attempt index (0-based) to the transport
  outcome of that attempt.  A `TransportResult.response` carries the parsed
  JSON body (modelled as an association list of scalar values); the
  `resp.json()` call itself is not modelled as fallible.
- Python `int(header)` on the `Retry-After` string is `pyParseInt`; when it
  fails the real code raises `ValueError`, which is not caught by the
  `except (RequestError, TimeoutException)` handler and propagates: this is
  the `FetchResult.raised` / `Except.error` outcome.
- Wall-clock time, the aiolimiter rate limiter, and scheduler interleavings
  are not modelled; the concurrency-gate behaviour of the async variant is
  captured as the ordered event trace `fetch_item_events` (semaphore acquire,
  requests, sleeps, release), exactly as the `async with semaphore:` block
  orders them.
- `run_reqs` processes items 1..N in item order and collects at most one row
  per item.  The real clients collect rows in nondeterministic completion
  order; the claims below only concern the set of rows, row counts and
  per-item membership, which are order-independent.
-/

namespace FaultyAPI

/-- Scalar JSON values appearing in an order record body. -/
inductive JsonVal where
  | str (s : String)
  | num (n : Int)
deriving DecidableEq, Repr

/-- A parsed JSON object (`resp.json()`): association list with unique keys,
first binding wins, as in a Python dict. -/
abbrev Body := List (String × JsonVal)

/-- Python `data.get(field)` on a parsed body. -/
def dictGet (b : Body) (k : String) : Option JsonVal :=
  (b.find? (fun p => p.1 == k)).map (fun p => p.2)

/-- Outcome of one `client.get(url, timeout=...)` call: an HTTP response with
status, optional `Retry-After` header (raw string) and parsed JSON body, or a
transport-level failure (`httpx.RequestError` / `httpx.TimeoutException`). -/
inductive TransportResult where
  | response (status : Nat) (retryAfter : Option String) (body : Body)
  | transportError
deriving DecidableEq, Repr

/-- Value of a nonempty decimal digit string (helper for `pyParseInt`). -/
def digitsVal? (l : List Char) : Option Nat :=
  if l = [] then none
  else if l.all Char.isDigit then
    some (l.foldl (fun a c => 10 * a + (c.toNat - 48)) 0)
  else none

/-- Python `int(s)` on a string: optional surrounding whitespace, optional
sign, then decimal digits; anything else raises `ValueError` (here: `none`).
(Underscore digit separators accepted by CPython are not modelled; no claim
depends on them.) -/
def pyParseInt (s : String) : Option Int :=
  match ((s.toList.dropWhile Char.isWhitespace).reverse.dropWhile Char.isWhitespace).reverse with
  | [] => none
  | c :: rest =>
    if c = '-' then (digitsVal? rest).map (fun n => -(n : Int))
    else if c = '+' then (digitsVal? rest).map (fun n => (n : Int))
    else (digitsVal? (c :: rest)).map (fun n => (n : Int))

/-- The action the retry loop takes after inspecting one transport outcome. -/
inductive Action where
  | accept (status : Nat) (body : Body)
  | waitAndRetry (d : Int)
  | failPermanently (status : Nat)
  | raiseValueError
deriving DecidableEq, Repr

/-- Python `int(resp.headers.get("Retry-After", 1))`: when the header is
absent, `get` returns the default `1` and `int(1) = 1`; when present,
`int(<string>)` parses it or raises. -/
def retryAfterSeconds (h : Option String) : Option Int :=
  match h with
  | none => some 1
  | some s => pyParseInt s

/-- The `if/elif` chain of `fetch_item`, identical in both client variants:
429 first (parse `Retry-After`, sleep that long, retry), then 5xx (sleep 1,
retry), then remaining 4xx (return immediately, non-retryable), otherwise
`return resp.json()`; a transport exception sleeps 1 and retries. -/
def classify (r : TransportResult) : Action :=
  match r with
  | .transportError => .waitAndRetry 1
  | .response status retryAfter body =>
    if status = 429 then
      match retryAfterSeconds retryAfter with
      | some d => .waitAndRetry d
      | none => .raiseValueError
    else if 500 ≤ status ∧ status < 600 then .waitAndRetry 1
    else if 400 ≤ status ∧ status < 500 then .failPermanently status
    else .accept status body

/-- Terminal result of `fetch_item` for one item.  `success` is the
`return resp.json()` path (the threaded variant also returns the status);
`clientError` is the non-retryable 4xx `return`; `exhausted` is falling out
of the `while retries < max_retries` loop; `raised` is an uncaught
`ValueError` from `int()` on an unparseable `Retry-After` header. -/
inductive FetchResult where
  | success (status : Nat) (body : Body)
  | clientError (status : Nat)
  | exhausted
  | raised
deriving DecidableEq, Repr

/-- The retry loop of `fetch_item(client, item_id, ..., max_retries)`.
`attempt` is the 0-based index of the next request (the value of `retries`
when the request is issued) and `budget` is `max_retries - retries`, the
number of loop iterations still allowed.  Entry point:
`fetch_item t 0 max_retries`. -/
def fetch_item (t : Nat → TransportResult) : Nat → Nat → FetchResult
  | _, 0 => .exhausted
  | attempt, budget + 1 =>
    match classify (t attempt) with
    | .accept status body => .success status body
    | .failPermanently status => .clientError status
    | .raiseValueError => .raised
    | .waitAndRetry _ => fetch_item t (attempt + 1) budget

/-- Observable events of one async worker: semaphore acquisition and release,
request issue, and backoff sleeps. -/
inductive Event where
  | acquireGate
  | request (attempt : Nat)
  | sleep (d : Int)
  | releaseGate
deriving DecidableEq, Repr

/-- Events produced by the body of the `while` loop: each iteration issues a
request, and on a retryable outcome sleeps for the computed duration before
the next iteration.  (On the 429 path `int()` runs before the sleep, so an
unparseable header raises without sleeping.) -/
def loop_events (t : Nat → TransportResult) : Nat → Nat → List Event
  | _, 0 => []
  | attempt, budget + 1 =>
    .request attempt ::
      match classify (t attempt) with
      | .waitAndRetry d => .sleep d :: loop_events t (attempt + 1) budget
      | _ => []

/-- Event trace of the async `fetch_item`: the `async with semaphore:` block
surrounds the whole retry loop, so the gate is acquired once before the first
request and released once after the loop exits (by return, raise, or budget
exhaustion). -/
def fetch_item_events (t : Nat → TransportResult) (maxRetries : Nat) : List Event :=
  .acquireGate :: (loop_events t 0 maxRetries ++ [.releaseGate])

/-- Whether an event is a request issue. -/
def isRequest : Event → Bool
  | .request _ => true
  | _ => false

/-- Number of requests issued in a trace. -/
def requestCount (evs : List Event) : Nat :=
  (evs.filter isRequest).length

/-- Scans a trace with a they-hold-the-gate flag and reports whether some
sleep happens while the gate is held. -/
def anySleepWhileHolding : Bool → List Event → Bool
  | _, [] => false
  | _, .acquireGate :: rest => anySleepWhileHolding true rest
  | _, .releaseGate :: rest => anySleepWhileHolding false rest
  | h, .sleep _ :: rest => h || anySleepWhileHolding h rest
  | h, .request _ :: rest => anySleepWhileHolding h rest

/-- Scans a trace and reports whether every sleep happens while the gate is
held. -/
def allSleepsWhileHolding : Bool → List Event → Bool
  | _, [] => true
  | _, .acquireGate :: rest => allSleepsWhileHolding true rest
  | _, .releaseGate :: rest => allSleepsWhileHolding false rest
  | h, .sleep _ :: rest => h && allSleepsWhileHolding h rest
  | h, .request _ :: rest => allSleepsWhileHolding h rest

/-- The fixed nine-field output schema (`FIELDS` in both clients). -/
def FIELDS : List String :=
  ["order_id", "account_id", "company", "status", "currency",
   "subtotal", "tax", "total", "created_at"]

/-- One output row: `{field: data.get(field) for field in FIELDS}`, kept in
`FIELDS` order; a missing field is `none` (Python `None`). -/
abbrev Row := List (Option JsonVal)

/-- Projection of a response body onto the fixed schema. -/
def projectRow (b : Body) : Row :=
  FIELDS.map (fun f => dictGet b f)

/-- The `order_id` cell of a row (first field of the schema). -/
def rowOrderId (r : Row) : Option JsonVal :=
  r.headD none

/-- Row collection of the async `run_reqs`: `fetch_item` returned `None` on
client error or exhaustion, and the row is appended only `if data:` — a falsy
(empty-dict) body is silently skipped. -/
def asyncCollect : FetchResult → Option Row
  | .success _ body => if body.isEmpty then none else some (projectRow body)
  | _ => none

/-- Row collection of the threaded `run_reqs`: `fetch_item` returns
`(item_id, status, data)` and the row is appended only `if status == 200`,
whatever the body. -/
def threadsCollect : FetchResult → Option Row
  | .success status body => if status = 200 then some (projectRow body) else none
  | _ => none

/-- Driver loop shared by both `run_reqs` variants: items `i, i+1, ...`
(`n` of them), one `fetch_item` each, rows gathered per `collect`.  An
uncaught exception inside a worker propagates through
`future.result()` / `await future`, so the whole run aborts (`Except.error`).
`t` maps `(item_id, attempt)` to the transport outcome. -/
def run_reqs (collect : FetchResult → Option Row)
    (t : Nat → Nat → TransportResult) (maxRetries : Nat) :
    Nat → Nat → Except Unit (List Row)
  | _, 0 => .ok []
  | i, n + 1 =>
    match fetch_item (t i) 0 maxRetries with
    | .raised => .error ()
    | r =>
      match run_reqs collect t maxRetries (i + 1) n with
      | .error e => .error e
      | .ok rest => .ok ((collect r).toList ++ rest)

/-- `run_reqs(num_items)` of `client_async.py` over items 1..N. -/
def run_reqs_async (t : Nat → Nat → TransportResult) (N maxRetries : Nat) :
    Except Unit (List Row) :=
  run_reqs asyncCollect t maxRetries 1 N

/-- `run_reqs(num_reqs)` of `client_threads.py` over items 1..N. -/
def run_reqs_threads (t : Nat → Nat → TransportResult) (N maxRetries : Nat) :
    Except Unit (List Row) :=
  run_reqs threadsCollect t maxRetries 1 N

/-- Python `str(value)` as used by the async `write_csv` cell rendering
`str(row.get(f, ""))`: every key is present in the row, so the cell value is
the stored one; `str(None)` is the four-character string `None`. -/
def pyStr : Option JsonVal → String
  | none => "None"
  | some (.str s) => s
  | some (.num n) => toString n

/-- One data line of the async `write_csv`:
`','.join(str(row.get(f, "")) for f in FIELDS)`.  (No quoting or escaping is
performed by the source.) -/
def write_csv_line (r : Row) : String :=
  String.intercalate "," (r.map pyStr)

/-- One cell as written by `csv.DictWriter.writerows` in the threaded main
block: the csv module renders `None` as the empty string.  (Quoting of
delimiters inside values is not modelled; no claim depends on it.) -/
def dictWriterCell : Option JsonVal → String
  | none => ""
  | some (.str s) => s
  | some (.num n) => toString n

/-- One row as written by `csv.DictWriter.writerows`. -/
def dictWriterRow (r : Row) : List String :=
  r.map dictWriterCell

/-- A transport that always answers 503 (spec §8's always-failing mock). -/
def always503 : Nat → TransportResult :=
  fun _ => .response 503 none []

/-- A well-behaved mock transport: every item answers 200 at once with a body
whose `order_id` equals the item id (as the upstream `make_order_model`
guarantees). -/
def tOrder : Nat → Nat → TransportResult :=
  fun i _ => .response 200 none [("order_id", JsonVal.num i)]

/-- The two rows `tOrder` produces for items 1 and 2. -/
def rowsOrder2 : List Row :=
  [projectRow [("order_id", JsonVal.num 1)], projectRow [("order_id", JsonVal.num 2)]]

/-! ## Helper lemmas -/

/-- A request event adds one to the request count. -/
theorem requestCount_request_cons (a : Nat) (evs : List Event) :
    requestCount (Event.request a :: evs) = requestCount evs + 1 := by
  simp [requestCount, List.filter_cons, isRequest]

/-- A sleep event does not change the request count. -/
theorem requestCount_sleep_cons (d : Int) (evs : List Event) :
    requestCount (Event.sleep d :: evs) = requestCount evs := by
  simp [requestCount, List.filter_cons, isRequest]

/-- The retry loop issues at most `budget` requests. -/
theorem requestCount_loop_le (t : Nat → TransportResult) :
    ∀ n a : Nat, requestCount (loop_events t a n) ≤ n := by
  intro n
  induction n with
  | zero => intro a; simp [loop_events, requestCount]
  | succ m ih =>
    intro a
    rw [loop_events]
    cases hc : classify (t a) with
    | waitAndRetry d =>
      show requestCount (Event.request a :: Event.sleep d :: loop_events t (a + 1) m) ≤ m + 1
      rw [requestCount_request_cons, requestCount_sleep_cons]
      exact Nat.succ_le_succ (ih (a + 1))
    | accept status body =>
      show requestCount [Event.request a] ≤ m + 1
      simp [requestCount, List.filter_cons, isRequest]
    | failPermanently status =>
      show requestCount [Event.request a] ≤ m + 1
      simp [requestCount, List.filter_cons, isRequest]
    | raiseValueError =>
      show requestCount [Event.request a] ≤ m + 1
      simp [requestCount, List.filter_cons, isRequest]

/-- When every attempt classifies as retryable, the loop uses its whole
budget and exhausts. -/
theorem loop_all_retry (t : Nat → TransportResult)
    (H : ∀ a, ∃ d, classify (t a) = .waitAndRetry d) :
    ∀ n a : Nat,
      requestCount (loop_events t a n) = n ∧ fetch_item t a n = .exhausted := by
  intro n
  induction n with
  | zero => intro a; exact ⟨by simp [loop_events, requestCount], rfl⟩
  | succ m ih =>
    intro a
    obtain ⟨d, hd⟩ := H a
    constructor
    · rw [loop_events, hd]
      show requestCount (Event.request a :: Event.sleep d :: loop_events t (a + 1) m) = m + 1
      rw [requestCount_request_cons, requestCount_sleep_cons, (ih (a + 1)).1]
    · rw [fetch_item, hd]
      exact (ih (a + 1)).2

/-- In the loop-body trace followed by the final gate release, every sleep
happens in the gate-held state. -/
theorem allSleeps_loop (t : Nat → TransportResult) :
    ∀ n a : Nat,
      allSleepsWhileHolding true (loop_events t a n ++ [Event.releaseGate]) = true := by
  intro n
  induction n with
  | zero => intro a; rfl
  | succ m ih =>
    intro a
    rw [loop_events]
    cases hc : classify (t a) with
    | waitAndRetry d =>
      show allSleepsWhileHolding true
        (Event.request a :: Event.sleep d :: (loop_events t (a + 1) m ++ [Event.releaseGate])) = true
      show (true && allSleepsWhileHolding true (loop_events t (a + 1) m ++ [Event.releaseGate])) = true
      rw [Bool.true_and]
      exact ih (a + 1)
    | accept status body => rfl
    | failPermanently status => rfl
    | raiseValueError => rfl

/-! ## Claim theorems -/

/-- C1 counterexample: with the default `max_retries = 3` and a transport
that always answers 503, the async worker's trace contains retry sleeps
taken while the ConcurrencyGate (semaphore) slot is still held, refuting
"at no point during a retry sleep does a worker still hold a concurrency
slot". -/
theorem sleep_while_holding_gate :
    anySleepWhileHolding false (fetch_item_events always503 3) = true ∧
    fetch_item_events always503 3 =
      [Event.acquireGate, Event.request 0, Event.sleep 1, Event.request 1,
       Event.sleep 1, Event.request 2, Event.sleep 1, Event.releaseGate] := by
  constructor
  · decide
  · decide

/-- C1 amended: the async `fetch_item` holds its semaphore slot for the whole
retry loop (`async with semaphore:` surrounds the `while`), so every backoff
sleep — not none of them — happens while the worker holds its concurrency
slot; the slot is released only when the loop exits. -/
theorem all_sleeps_while_holding_gate (t : Nat → TransportResult) (k : Nat) :
    allSleepsWhileHolding false (fetch_item_events t k) = true := by
  show allSleepsWhileHolding true (loop_events t 0 k ++ [Event.releaseGate]) = true
  exact allSleeps_loop t k 0

/-- C3 counterexample: with default `max_retries = 3` and every attempt
retryable (always 503), `fetch_item` issues exactly 3 requests in total —
not 1 + 3 = 4 — before ending exhausted (`Failed`). -/
theorem three_attempts_total_not_four :
    fetch_item always503 0 3 = .exhausted ∧
    requestCount (loop_events always503 0 3) = 3 ∧
    ¬ requestCount (loop_events always503 0 3) = 4 := by
  refine ⟨by decide, by decide, by decide⟩

/-- C3 amended: when every attempt yields a retryable outcome, `fetch_item`
with budget `max_retries` performs exactly `max_retries` request attempts in
total (the first request included, not in addition) and ends exhausted. -/
theorem all_retryable_attempt_count (t : Nat → TransportResult) (k : Nat)
    (H : ∀ a, ∃ d, classify (t a) = .waitAndRetry d) :
    requestCount (loop_events t 0 k) = k ∧ fetch_item t 0 k = .exhausted :=
  ⟨(loop_all_retry t H k 0).1, (loop_all_retry t H k 0).2⟩

/-- C3 amended, witness at the always-503 transport with the default budget
of 3. -/
theorem all_retryable_attempt_count_w :
    requestCount (loop_events always503 0 3) = 3 ∧
    fetch_item always503 0 3 = .exhausted :=
  all_retryable_attempt_count always503 3 (fun _ => ⟨1, rfl⟩)

/-- C4: `fetch_item` (a total function, hence terminating on every transport)
enters the requesting phase at most `max_retries` times, and on the
always-503 transport it ends exhausted (`Failed`) after exactly
`max_retries` attempts. -/
theorem fetch_item_bounded_attempts (t : Nat → TransportResult) (k : Nat) :
    requestCount (loop_events t 0 k) ≤ k ∧
    fetch_item always503 0 k = .exhausted ∧
    requestCount (loop_events always503 0 k) = k := by
  have h5 : ∀ a, ∃ d, classify (always503 a) = Action.waitAndRetry d :=
    fun _ => ⟨1, rfl⟩
  exact ⟨requestCount_loop_le t k 0, (loop_all_retry always503 h5 k 0).2,
    (loop_all_retry always503 h5 k 0).1⟩

/-- C2 counterexample: a 429 response whose `Retry-After` header is present
but unparseable makes `int()` raise an uncaught `ValueError`: the worker
reaches no terminal outcome and the whole run is aborted, refuting "in every
case ... the worker reaches a terminal outcome and the overall run is never
aborted". -/
theorem unparseable_retry_after_aborts_run :
    classify (.response 429 (some "soon") []) = .raiseValueError ∧
    fetch_item (fun _ => .response 429 (some "soon") []) 0 3 = .raised ∧
    run_reqs_async (fun _ _ => .response 429 (some "soon") []) 1 3 = .error () := by
  refine ⟨by decide, by decide, rfl⟩

/-- C2 amended: on a 429 the worker waits `Retry-After` seconds when the
header is present and parses as an integer, and 1 second when the header is
absent; but when the header is present and unparseable, `int()` raises, the
item reaches no terminal outcome and the run aborts. -/
theorem retry_after_wait_durations (ra : Option String) (b : Body) :
    (ra = none → classify (.response 429 ra b) = .waitAndRetry 1) ∧
    (∀ s n, ra = some s → pyParseInt s = some n →
      classify (.response 429 ra b) = .waitAndRetry n) ∧
    (∀ s, ra = some s → pyParseInt s = none →
      classify (.response 429 ra b) = .raiseValueError ∧
      fetch_item (fun _ => .response 429 ra b) 0 3 = .raised ∧
      run_reqs_async (fun _ _ => .response 429 ra b) 1 3 = .error ()) := by
  refine ⟨?_, ?_, ?_⟩
  · intro h
    subst h
    rfl
  · intro s n hs hp
    subst hs
    simp [classify, retryAfterSeconds, hp]
  · intro s hs hp
    subst hs
    have hcl : classify (.response 429 (some s) b) = .raiseValueError := by
      simp [classify, retryAfterSeconds, hp]
    refine ⟨hcl, ?_, ?_⟩
    · rw [fetch_item, hcl]
    · show run_reqs asyncCollect (fun _ _ => .response 429 (some s) b) 3 1 1 = .error ()
      rw [run_reqs]
      rw [show fetch_item (fun _ => TransportResult.response 429 (some s) b) 0 3 =
        FetchResult.raised from by rw [fetch_item, hcl]]

/-- C2 amended, witness: a parseable header `Retry-After: 3` waits 3 seconds,
an absent header waits 1 second, and the unparseable header `soon` raises. -/
theorem retry_after_wait_durations_w :
    classify (.response 429 (some "3") []) = .waitAndRetry 3 ∧
    classify (.response 429 none []) = .waitAndRetry 1 ∧
    classify (.response 429 (some "soon") []) = .raiseValueError :=
  ⟨(retry_after_wait_durations (some "3") []).2.1 "3" 3 rfl (by decide),
   (retry_after_wait_durations none []).1 rfl,
   ((retry_after_wait_durations (some "soon") []).2.2 "soon" rfl (by decide)).1⟩

/-- C5: the outcome classification of the `if/elif` chain: 200 accepted; 404
and every other non-429 4xx fail permanently at once, with exactly one
request issued and no retry budget consumed whatever the budget; 429 with
`Retry-After: 3` waits 3 seconds; 503 waits 1 second; a transport error
waits 1 second. -/
theorem retry_policy_classification (b : Body) (ra : Option String) :
    classify (.response 200 ra b) = .accept 200 b ∧
    classify (.response 404 ra b) = .failPermanently 404 ∧
    (∀ s, 400 ≤ s → s < 500 → s ≠ 429 →
      classify (.response s ra b) = .failPermanently s) ∧
    classify (.response 429 (some "3") b) = .waitAndRetry 3 ∧
    classify (.response 503 ra b) = .waitAndRetry 1 ∧
    classify .transportError = .waitAndRetry 1 ∧
    (∀ k (t : Nat → TransportResult), t 0 = .response 404 ra b →
      fetch_item t 0 (k + 1) = .clientError 404 ∧
      requestCount (loop_events t 0 (k + 1)) = 1) := by
  refine ⟨rfl, rfl, ?_, rfl, rfl, rfl, ?_⟩
  · intro s h4 h5 h429
    simp only [classify]
    rw [if_neg h429, if_neg (by omega), if_pos (by omega)]
  · intro k t ht
    have hcl : classify (t 0) = .failPermanently 404 := by rw [ht]; rfl
    constructor
    · rw [fetch_item, hcl]
    · rw [loop_events, hcl]
      show requestCount [Event.request 0] = 1
      rfl

/-- C5 witness: the classification theorem applied at status 418 (a non-429
client error) and at a concrete 404 transport with budget 3. -/
theorem retry_policy_classification_w :
    classify (.response 418 none []) = .failPermanently 418 ∧
    fetch_item (fun _ => .response 404 none []) 0 3 = .clientError 404 ∧
    requestCount (loop_events (fun _ => .response 404 none []) 0 3) = 1 :=
  ⟨(retry_policy_classification [] none).2.2.1 418 (by decide) (by decide) (by decide),
   ((retry_policy_classification [] none).2.2.2.2.2.2 2
     (fun _ => .response 404 none []) rfl).1,
   ((retry_policy_classification [] none).2.2.2.2.2.2 2
     (fun _ => .response 404 none []) rfl).2⟩

/-- Helper for C10: when every response is a 200 with an empty (falsy) body,
the async run succeeds for every item yet collects no row at all. -/
theorem run_reqs_empty_body (k : Nat) :
    ∀ n i : Nat,
      run_reqs asyncCollect (fun _ _ => .response 200 none []) (k + 1) i n = .ok [] := by
  intro n
  induction n with
  | zero => intro i; rfl
  | succ m ih =>
    intro i
    simp only [run_reqs]
    rw [show fetch_item (fun _ => TransportResult.response 200 none []) 0 (k + 1) =
      FetchResult.success 200 [] from rfl]
    rw [ih (i + 1)]
    rfl

/-- C10: in the async client a 200 response with a falsy (empty-object) JSON
body is a successful fetch, yet `if data:` skips it, so the item contributes
no output row — it is silently dropped. -/
theorem falsy_body_success_dropped (N k : Nat) :
    fetch_item (fun _ => .response 200 none []) 0 (k + 1) = .success 200 [] ∧
    run_reqs_async (fun _ _ => .response 200 none []) N (k + 1) = .ok [] :=
  ⟨rfl, run_reqs_empty_body k N 1⟩

/-- C7 counterexample: for a 200 body containing only `order_id`, the async
`write_csv` line renders every missing field as the string `None`
(`str(None)`), not as an empty value. -/
theorem missing_field_rendered_none :
    write_csv_line (projectRow [("order_id", JsonVal.num 1)]) =
      "1,None,None,None,None,None,None,None,None" ∧
    write_csv_line (projectRow [("order_id", JsonVal.num 1)]) ≠ "1,,,,,,,," := by
  constructor
  · rfl
  · decide

/-- C7 amended: a field missing from the response body is stored as `None` in
the projected row; the threaded client's `csv.DictWriter` writes it as an
empty cell, but the async client's manual `','.join(str(...))` writes the
four-character string `None` instead of an empty value. -/
theorem missing_fields_empty_vs_none (b : Body) (f : String) (_hf : f ∈ FIELDS)
    (h : dictGet b f = none) :
    dictWriterRow (projectRow b) = FIELDS.map (fun g => dictWriterCell (dictGet b g)) ∧
    dictWriterCell (dictGet b f) = "" ∧
    write_csv_line (projectRow b) =
      String.intercalate "," (FIELDS.map (fun g => pyStr (dictGet b g))) ∧
    pyStr (dictGet b f) = "None" := by
  refine ⟨?_, ?_, ?_, ?_⟩
  · simp [dictWriterRow, projectRow, List.map_map, Function.comp]
  · rw [h]
    rfl
  · rw [write_csv_line, projectRow, List.map_map]
    rfl
  · rw [h]
    rfl

/-- C7 amended, witness at a body holding only `order_id` and the schema
field `tax`. -/
theorem missing_fields_empty_vs_none_w :
    dictWriterCell (dictGet [("order_id", JsonVal.num 1)] "tax") = "" ∧
    pyStr (dictGet [("order_id", JsonVal.num 1)] "tax") = "None" :=
  ⟨(missing_fields_empty_vs_none [("order_id", JsonVal.num 1)] "tax"
      (by decide) (by decide)).2.1,
   (missing_fields_empty_vs_none [("order_id", JsonVal.num 1)] "tax"
      (by decide) (by decide)).2.2.2⟩

/-- Unfolding of one driver step when the worker does not raise. -/
theorem run_reqs_succ_not_raised (collect : FetchResult → Option Row)
    (t : Nat → Nat → TransportResult) (k i n : Nat)
    (hr : fetch_item (t i) 0 k ≠ .raised) :
    run_reqs collect t k i (n + 1) =
      match run_reqs collect t k (i + 1) n with
      | .error e => .error e
      | .ok rest => .ok ((collect (fetch_item (t i) 0 k)).toList ++ rest) := by
  rw [run_reqs]
  cases hf : fetch_item (t i) 0 k with
  | raised => exact absurd hf hr
  | success st b => rfl
  | clientError s => rfl
  | exhausted => rfl

/-- A successful run collects exactly the filterMap of the per-item
collection over the item ids, in item order. -/
theorem run_reqs_ok (collect : FetchResult → Option Row)
    (t : Nat → Nat → TransportResult) (k : Nat) :
    ∀ (n i : Nat) (rows : List Row),
      run_reqs collect t k i n = .ok rows →
      rows = (List.range' i n).filterMap
        (fun j => collect (fetch_item (t j) 0 k)) := by
  intro n
  induction n with
  | zero =>
    intro i rows h
    simp only [run_reqs] at h
    cases h
    rfl
  | succ m ih =>
    intro i rows h
    by_cases hraised : fetch_item (t i) 0 k = .raised
    · rw [run_reqs, hraised] at h
      exact Except.noConfusion h
    · rw [run_reqs_succ_not_raised collect t k i m hraised] at h
      cases hr : run_reqs collect t k (i + 1) m with
      | error e => rw [hr] at h; exact Except.noConfusion h
      | ok rest =>
        rw [hr] at h
        have hrows := Except.ok.inj h
        subst hrows
        have hrest := ih (i + 1) rest hr
        subst hrest
        simp only [List.range'_succ, List.filterMap_cons]
        cases hcoll : collect (fetch_item (t i) 0 k) with
        | none => simp
        | some row => simp

/-- When `classify` accepts, the transport outcome really was a response with
that status and body. -/
theorem classify_accept (r : TransportResult) (st : Nat) (b : Body)
    (h : classify r = .accept st b) : ∃ ra, r = .response st ra b := by
  cases r with
  | transportError => exact Action.noConfusion h
  | response s ra body =>
    refine ⟨ra, ?_⟩
    simp only [classify] at h
    by_cases h429 : s = 429
    · rw [if_pos h429] at h
      cases hp : retryAfterSeconds ra with
      | some d => rw [hp] at h; exact Action.noConfusion h
      | none => rw [hp] at h; exact Action.noConfusion h
    · rw [if_neg h429] at h
      by_cases h5 : 500 ≤ s ∧ s < 600
      · rw [if_pos h5] at h; exact Action.noConfusion h
      · rw [if_neg h5] at h
        by_cases h4 : 400 ≤ s ∧ s < 500
        · rw [if_pos h4] at h; exact Action.noConfusion h
        · rw [if_neg h4] at h
          obtain ⟨h1, h2⟩ := Action.accept.inj h
          subst h1
          subst h2
          rfl

/-- A successful `fetch_item` got its status and body from some transport
response of that worker. -/
theorem fetch_item_success_src (t : Nat → TransportResult) :
    ∀ n a st b, fetch_item t a n = .success st b →
      ∃ a2 ra, t a2 = .response st ra b := by
  intro n
  induction n with
  | zero => intro a st b h; exact FetchResult.noConfusion h
  | succ m ih =>
    intro a st b h
    rw [fetch_item] at h
    cases hc : classify (t a) with
    | accept st2 b2 =>
      rw [hc] at h
      obtain ⟨h1, h2⟩ := FetchResult.success.inj h
      subst h1
      subst h2
      obtain ⟨ra, hra⟩ := classify_accept (t a) st2 b2 hc
      exact ⟨a, ra, hra⟩
    | failPermanently s => rw [hc] at h; exact FetchResult.noConfusion h
    | raiseValueError => rw [hc] at h; exact FetchResult.noConfusion h
    | waitAndRetry d =>
      rw [hc] at h
      exact ih (a + 1) st b h

/-- The `order_id` cell of a projected row is the body's `order_id` field. -/
theorem rowOrderId_projectRow (b : Body) :
    rowOrderId (projectRow b) = dictGet b "order_id" := rfl

/-- The async collection only emits rows projected from success bodies. -/
theorem asyncCollect_some (r : FetchResult) (row : Row)
    (h : asyncCollect r = some row) :
    ∃ st b, r = .success st b ∧ row = projectRow b := by
  cases r with
  | success st b =>
    refine ⟨st, b, rfl, ?_⟩
    simp only [asyncCollect] at h
    by_cases hb : b.isEmpty
    · rw [if_pos hb] at h; exact Option.noConfusion h
    · rw [if_neg hb] at h; exact (Option.some.inj h).symm
  | clientError s => exact Option.noConfusion h
  | exhausted => exact Option.noConfusion h
  | raised => exact Option.noConfusion h

/-- The threaded collection only emits rows projected from success bodies. -/
theorem threadsCollect_some (r : FetchResult) (row : Row)
    (h : threadsCollect r = some row) :
    ∃ st b, r = .success st b ∧ row = projectRow b := by
  cases r with
  | success st b =>
    refine ⟨st, b, rfl, ?_⟩
    simp only [threadsCollect] at h
    by_cases hst : st = 200
    · rw [if_pos hst] at h; exact (Option.some.inj h).symm
    · rw [if_neg hst] at h; exact Option.noConfusion h
  | clientError s => exact Option.noConfusion h
  | exhausted => exact Option.noConfusion h
  | raised => exact Option.noConfusion h

/-- Core row-accounting result shared by both pipeline variants: on a
transport whose response bodies carry `order_id = item id`, a successful run
yields at most N rows, with pairwise distinct `order_id` values drawn from
{1..N}, and no row for an item whose fetch failed permanently or
exhausted its retries. -/
theorem run_rows_order_core (collect : FetchResult → Option Row)
    (Hc : ∀ r row, collect r = some row →
      ∃ st b, r = .success st b ∧ row = projectRow b)
    (t : Nat → Nat → TransportResult) (k N : Nat) (rows : List Row)
    (Horder : ∀ i a st ra b, t i a = .response st ra b →
      dictGet b "order_id" = some (.num i))
    (h : run_reqs collect t k 1 N = .ok rows) :
    rows.length ≤ N ∧
    (rows.map rowOrderId).Nodup ∧
    (∀ v ∈ rows.map rowOrderId, ∃ i, 1 ≤ i ∧ i ≤ N ∧ v = some (.num i)) ∧
    (∀ i, 1 ≤ i → i ≤ N →
      ((∃ s, fetch_item (t i) 0 k = .clientError s) ∨
        fetch_item (t i) 0 k = .exhausted) →
      some (JsonVal.num i) ∉ rows.map rowOrderId) := by
  have hrows := run_reqs_ok collect t k N 1 rows h
  have key : ∀ j v,
      Option.map rowOrderId (collect (fetch_item (t j) 0 k)) = some v →
      v = some (JsonVal.num j) := by
    intro j v hv
    cases hcoll : collect (fetch_item (t j) 0 k) with
    | none => rw [hcoll] at hv; exact Option.noConfusion hv
    | some row =>
      rw [hcoll] at hv
      have hv2 := Option.some.inj hv
      obtain ⟨st, b, hfr, hrow⟩ := Hc _ _ hcoll
      obtain ⟨a2, ra, hta⟩ := fetch_item_success_src (t j) k 0 st b hfr
      have hoid := Horder j a2 st ra b hta
      rw [← hv2, hrow, rowOrderId_projectRow, hoid]
  have hmap : rows.map rowOrderId = (List.range' 1 N).filterMap
      (fun j => Option.map rowOrderId (collect (fetch_item (t j) 0 k))) := by
    rw [hrows, List.map_filterMap]
  refine ⟨?_, ?_, ?_, ?_⟩
  · rw [hrows]
    calc ((List.range' 1 N).filterMap
          (fun j => collect (fetch_item (t j) 0 k))).length
        ≤ (List.range' 1 N).length := List.length_filterMap_le _ _
      _ = N := by simp
  · rw [hmap]
    refine List.Nodup.filterMap ?_ (List.nodup_range' 1 N)
    intro j j2 v hv1 hv2
    rw [Option.mem_def] at hv1 hv2
    have e1 := key j v hv1
    have e2 := key j2 v hv2
    have e3 := e1.symm.trans e2
    simpa using e3
  · intro v hv
    rw [hmap] at hv
    obtain ⟨j, hj, hfj⟩ := List.mem_filterMap.mp hv
    rw [List.mem_range'_1] at hj
    exact ⟨j, hj.1, by omega, key j v hfj⟩
  · intro i hi1 hi2 hfail hmem
    rw [hmap] at hmem
    obtain ⟨j, hj, hfj⟩ := List.mem_filterMap.mp hmem
    have hkey := key j _ hfj
    have hij : i = j := by simpa using hkey
    subst hij
    cases hcoll : collect (fetch_item (t i) 0 k) with
    | none => rw [hcoll] at hfj; exact Option.noConfusion hfj
    | some row =>
      obtain ⟨st, b, hfr, _⟩ := Hc _ _ hcoll
      cases hfail with
      | inl hce =>
        obtain ⟨s, hs⟩ := hce
        rw [hs] at hfr
        exact FetchResult.noConfusion hfr
      | inr hex =>
        rw [hex] at hfr
        exact FetchResult.noConfusion hfr

/-- C8 amended: assuming every response body carries `order_id` equal to the
requested item id (the upstream contract; the clients themselves never check
it), both pipelines' successful outputs have at most N rows, pairwise
distinct `order_id` values drawn from {1..N}, and no row — not even a
placeholder — for a permanently failed or retry-exhausted item. -/
theorem output_rows_bound_and_distinct (t : Nat → Nat → TransportResult)
    (k N : Nat) (rowsA rowsT : List Row)
    (Horder : ∀ i a st ra b, t i a = .response st ra b →
      dictGet b "order_id" = some (.num i))
    (hA : run_reqs_async t N k = .ok rowsA)
    (hT : run_reqs_threads t N k = .ok rowsT) :
    (rowsA.length ≤ N ∧ (rowsA.map rowOrderId).Nodup ∧
      (∀ v ∈ rowsA.map rowOrderId, ∃ i, 1 ≤ i ∧ i ≤ N ∧ v = some (.num i)) ∧
      (∀ i, 1 ≤ i → i ≤ N →
        ((∃ s, fetch_item (t i) 0 k = .clientError s) ∨
          fetch_item (t i) 0 k = .exhausted) →
        some (JsonVal.num i) ∉ rowsA.map rowOrderId)) ∧
    (rowsT.length ≤ N ∧ (rowsT.map rowOrderId).Nodup ∧
      (∀ v ∈ rowsT.map rowOrderId, ∃ i, 1 ≤ i ∧ i ≤ N ∧ v = some (.num i)) ∧
      (∀ i, 1 ≤ i → i ≤ N →
        ((∃ s, fetch_item (t i) 0 k = .clientError s) ∨
          fetch_item (t i) 0 k = .exhausted) →
        some (JsonVal.num i) ∉ rowsT.map rowOrderId)) :=
  ⟨run_rows_order_core asyncCollect asyncCollect_some t k N rowsA Horder hA,
   run_rows_order_core threadsCollect threadsCollect_some t k N rowsT Horder hT⟩

/-- C8 counterexample: the clients take `order_id` from the response body,
not from the requested item id; a transport whose body says `order_id = 5`
for item 1 yields, at N = 1, an output row whose `order_id` is not the only
value 1 of {1..1}, refuting the claim for arbitrary transport behavior. -/
theorem order_id_from_body_not_item :
    run_reqs_async (fun _ _ => .response 200 none [("order_id", JsonVal.num 5)]) 1 3 =
      .ok [projectRow [("order_id", JsonVal.num 5)]] ∧
    rowOrderId (projectRow [("order_id", JsonVal.num 5)]) = some (JsonVal.num 5) ∧
    some (JsonVal.num 5) ≠ some (JsonVal.num 1) := by
  refine ⟨rfl, rfl, by decide⟩

/-- C8 amended, witness: the well-behaved transport `tOrder` at N = 2 with
the default budget 3 produces exactly `rowsOrder2`, which satisfies the
bound and distinctness. -/
theorem output_rows_bound_and_distinct_w :
    rowsOrder2.length ≤ 2 ∧ (rowsOrder2.map rowOrderId).Nodup := by
  have Horder : ∀ i a st ra b, tOrder i a = .response st ra b →
      dictGet b "order_id" = some (.num i) := by
    intro i a st ra b h
    injection h with h1 h2 h3
    subst h3
    rfl
  have H := output_rows_bound_and_distinct tOrder 3 2 rowsOrder2 rowsOrder2
    Horder rfl rfl
  exact ⟨H.1.1, H.1.2.1⟩

/-- The driver is pointwise determined by the per-item collection: two
collection functions agreeing on every item's fetch result produce
identical runs. -/
theorem run_reqs_congr (c1 c2 : FetchResult → Option Row)
    (t : Nat → Nat → TransportResult) (k : Nat)
    (H : ∀ i, c1 (fetch_item (t i) 0 k) = c2 (fetch_item (t i) 0 k)) :
    ∀ n i, run_reqs c1 t k i n = run_reqs c2 t k i n := by
  intro n
  induction n with
  | zero => intro i; rfl
  | succ m ih =>
    intro i
    by_cases hraised : fetch_item (t i) 0 k = .raised
    · rw [run_reqs, run_reqs, hraised]
    · rw [run_reqs_succ_not_raised c1 t k i m hraised,
        run_reqs_succ_not_raised c2 t k i m hraised, ih (i + 1), H i]

/-- C9 counterexample: on a transport answering 200 with an empty (falsy)
body, the async pipeline outputs no row (`if data:`) while the threaded
pipeline outputs an all-empty row (`if status == 200`): the two variants'
outputs differ. -/
theorem async_threads_differ_on_empty_body :
    run_reqs_async (fun _ _ => .response 200 none []) 1 3 = .ok [] ∧
    run_reqs_threads (fun _ _ => .response 200 none []) 1 3 = .ok [projectRow []] ∧
    run_reqs_async (fun _ _ => .response 200 none []) 1 3 ≠
      run_reqs_threads (fun _ _ => .response 200 none []) 1 3 := by
  refine ⟨rfl, rfl, ?_⟩
  intro h
  have h2 : Except.ok ([] : List Row) = Except.ok [projectRow []] := h
  have h3 := Except.ok.inj h2
  exact absurd h3 (by decide)

/-- C9 amended: the two variants produce identical outputs for every N and
every per-(item, attempt) transport outcome, provided every worker that
succeeds does so with status exactly 200 and a non-empty (truthy) body;
without that proviso they differ (falsy 200 bodies are dropped only by the
async variant, non-2xx accepted statuses only by the threaded one). -/
theorem async_threads_equivalent (t : Nat → Nat → TransportResult) (k N : Nat)
    (H : ∀ i st b, fetch_item (t i) 0 k = .success st b → st = 200 ∧ b ≠ []) :
    run_reqs_async t N k = run_reqs_threads t N k := by
  have Hpt : ∀ i, asyncCollect (fetch_item (t i) 0 k) =
      threadsCollect (fetch_item (t i) 0 k) := by
    intro i
    cases hf : fetch_item (t i) 0 k with
    | success st b =>
      obtain ⟨h200, hne⟩ := H i st b hf
      subst h200
      cases b with
      | nil => exact absurd rfl hne
      | cons p rest => rfl
    | clientError s => rfl
    | exhausted => rfl
    | raised => rfl
  exact run_reqs_congr asyncCollect threadsCollect t k Hpt N 1

/-- C9 amended, witness at the well-behaved transport `tOrder` with N = 1. -/
theorem async_threads_equivalent_w :
    run_reqs_async tOrder 1 3 = run_reqs_threads tOrder 1 3 := by
  refine async_threads_equivalent tOrder 3 1 ?_
  intro i st b h
  have h2 : FetchResult.success 200 [("order_id", JsonVal.num i)] =
      FetchResult.success st b := h
  injection h2 with ha hb
  subst ha
  subst hb
  exact ⟨rfl, by simp⟩

end FaultyAPI
